import Mathlib

/-!
# Verification of the pesticide MRL compliance checker

A shallow embedding of `pesticide_checker.py` (class `PesticideChecker`).
The external record store (a Supabase table queried read-only) is modelled
as a list of rows in the store's native order; the `ilike` queries issued
by the code are modelled as case-insensitive equality / substring matching,
which is their meaning for wildcard-free arguments.  Python floats carry
decimal residue values on which the code only performs order comparison,
so they are embedded as rationals.  `datetime.fromisoformat` together with
`datetime.now()` and timedelta `.days` is an effectful computation external
to the decision logic; it is embedded as an environment function
`dateDays : String → Option Int` returning the integer day difference, or
`none` when the Python `try` block would raise.  Each `return
ComplianceResult(...)` site of the Python code is embedded as a named
result builder so that the branch structure stays visible.
-/

namespace Foodscan

/-- A row of the `pesticide_mrl` table, as read by the checker.
Nullable columns are `Option`; `crop` and `active_substance` are accessed
unconditionally by the code and are non-null identifying strings. -/
structure Row where
  crop : String
  active_substance : String
  eu_status : Option String
  mrl_eu : Option ℚ
  mrl_eu_flag : Option String
  mrl_codex : Option ℚ
  mrl_codex_flag : Option String
  eu_expiration : Option String
  pesticide_type : Option String
  dose : Option String
  max_applications : Option String
  interval_days : Option String
  preharvest_eu : Option String
  preharvest_codex : Option String
  who_class : Option String
  resistance_group : Option String
deriving Repr, DecidableEq

/-- The GAP payload produced by `PesticideChecker._extract_gap`. -/
structure Gap where
  dose : Option String
  max_applications : Option String
  interval_days : Option String
  preharvest_interval_eu : Option String
  preharvest_interval_codex : Option String
  who_toxicity_class : Option String
  pesticide_type : Option String
  resistance_group : Option String
deriving Repr, DecidableEq

/-- The `ComplianceResult` dataclass. -/
structure ComplianceResult where
  status : String
  severity : String
  message : String
  crop : String
  substance : String
  target_market : String
  mrl_limit : Option ℚ
  mrl_flag : Option String
  residue_level : Option ℚ
  eu_status : Option String
  gap_recommendations : Option Gap
  alternatives : Option (List String)
  references : List String
deriving Repr, DecidableEq

/-- Embeds the date computation of `_check_eu_compliance`:
`dateDays s` is `(datetime.fromisoformat(s) - datetime.now()).days`, or
`none` when that computation raises (the bare `except` path). -/
structure Env where
  dateDays : String → Option Int

/-- `PesticideChecker._extract_gap`: pure projection of a row's GAP fields. -/
def extract_gap (row : Row) : Gap :=
  { dose := row.dose
    max_applications := row.max_applications
    interval_days := row.interval_days
    preharvest_interval_eu := row.preharvest_eu
    preharvest_interval_codex := row.preharvest_codex
    who_toxicity_class := row.who_class
    pesticide_type := row.pesticide_type
    resistance_group := row.resistance_group }

/-- Character-wise lower-casing (the meaning of `str.lower` /
`lower()` in an `ilike`, spelled at the character level so that it
evaluates inside the kernel). -/
def strLower (s : String) : String :=
  ⟨s.data.map Char.toLower⟩

/-- Character-wise upper-casing (the meaning of `str.upper()`). -/
def strUpper (s : String) : String :=
  ⟨s.data.map Char.toUpper⟩

/-- Case-insensitive string equality, the meaning of a wildcard-free
`ilike` filter. -/
def strLowerEq (a b : String) : Bool :=
  strLower a == strLower b

/-- Case-insensitive substring containment, the meaning of an
`ilike` filter with pattern `%needle%`. -/
def containsCI (hay needle : String) : Bool :=
  decide ((strLower needle).data <:+: (strLower hay).data)

/-- The primary lookup `ilike(crop).ilike(active_substance)`: all rows of
the store matching both fields case-insensitively, in store order. -/
def find_records (store : List Row) (crop substance : String) : List Row :=
  store.filter fun r => strLowerEq r.crop crop && strLowerEq r.active_substance substance

/-- The non-approval test of `_check_eu_compliance` line 117:
`eu_status in ["Non approuvée", "Non reprise dans la liste"]`. -/
def euNonApproved (st : Option String) : Prop :=
  st = some "Non approuvée" ∨ st = some "Non reprise dans la liste"

instance (st : Option String) : Decidable (euNonApproved st) := by
  unfold euNonApproved; infer_instance

/-- `PesticideChecker._find_alternatives`: same-crop rows whose
`pesticide_type` contains the given type case-insensitively, with
`eu_status` exactly `"Approuvée"`, capped at 5, projected to substance
names.  A falsy `pesticide_type` (null or empty) short-circuits to `[]`. -/
def find_alternatives_query (store : List Row) (crop pt : String) : List String :=
  if pt = "" then []
  else
    (((store.filter fun r =>
          strLowerEq r.crop crop
          && (match r.pesticide_type with
              | some rpt => containsCI rpt pt
              | none => false)
          && (r.eu_status == some "Approuvée")).take 5).map
      fun r => r.active_substance)

/-- `PesticideChecker._find_alternatives` entry point: a null
`pesticide_type` is falsy and short-circuits to `[]` as well. -/
def find_alternatives (store : List Row) (crop : String) (pesticide_type : Option String) : List String :=
  match pesticide_type with
  | none => []
  | some pt => find_alternatives_query store crop pt

/-- EU rule 1 result (`_check_eu_compliance` lines 118-132): the
substance is not approved for the EU market. -/
def eu_critical_result (store : List Row) (row : Row) (residue_level : Option ℚ) : ComplianceResult :=
  { status := "NON_COMPLIANT"
    severity := "CRITICAL"
    message := "❌ " ++ row.active_substance ++ " is NOT APPROVED in EU for " ++ row.crop ++ ". Cannot export to EU market."
    crop := row.crop
    substance := row.active_substance
    target_market := "EU"
    mrl_limit := row.mrl_eu
    mrl_flag := row.mrl_eu_flag
    residue_level := residue_level
    eu_status := row.eu_status
    gap_recommendations := none
    alternatives := some (find_alternatives store row.crop row.pesticide_type)
    references := ["COLEAD GAP Database", "EU Reg 396/2005"] }

/-- EU rule 2 result (lines 140-154): approval expires within 180 days. -/
def eu_warning_result (row : Row) (exp_str : String) (days_until : Int) (residue_level : Option ℚ) : ComplianceResult :=
  { status := "WARNING"
    severity := "MAJOR"
    message := "⚠️ " ++ row.active_substance ++ " EU approval expires in " ++ toString days_until ++ " days (" ++ exp_str ++ "). Monitor for renewal."
    crop := row.crop
    substance := row.active_substance
    target_market := "EU"
    mrl_limit := row.mrl_eu
    mrl_flag := row.mrl_eu_flag
    residue_level := residue_level
    eu_status := row.eu_status
    gap_recommendations := some (extract_gap row)
    alternatives := none
    references := ["COLEAD GAP Database"] }

/-- EU rule 3 exceedance result (lines 161-175). -/
def eu_exceed_result (row : Row) (r l : ℚ) : ComplianceResult :=
  { status := "NON_COMPLIANT"
    severity := "MAJOR"
    message := "❌ Residue level " ++ toString r ++ " mg/kg exceeds EU MRL of " ++ toString l ++ " mg/kg."
    crop := row.crop
    substance := row.active_substance
    target_market := "EU"
    mrl_limit := some l
    mrl_flag := row.mrl_eu_flag
    residue_level := some r
    eu_status := row.eu_status
    gap_recommendations := some (extract_gap row)
    alternatives := none
    references := ["COLEAD GAP Database", "EU Reg 396/2005"] }

/-- EU rule 3 compliant result (lines 178-193). -/
def eu_compliant_result (row : Row) (r l : ℚ) : ComplianceResult :=
  { status := "COMPLIANT"
    severity := "INFO"
    message := "✅ Compliant with EU standards. Residue " ++ toString r ++ " mg/kg ≤ MRL " ++ toString l ++ " mg/kg" ++ (if row.mrl_eu_flag = some "LOQ" then " (at LOQ)" else "") ++ "."
    crop := row.crop
    substance := row.active_substance
    target_market := "EU"
    mrl_limit := some l
    mrl_flag := row.mrl_eu_flag
    residue_level := some r
    eu_status := row.eu_status
    gap_recommendations := some (extract_gap row)
    alternatives := none
    references := ["COLEAD GAP Database"] }

/-- EU informational fallback (lines 196-210). -/
def eu_info_result (row : Row) : ComplianceResult :=
  { status := "INFO"
    severity := "INFO"
    message := "ℹ️ EU MRL for " ++ row.active_substance ++ " on " ++ row.crop ++ ": " ++ toString row.mrl_eu ++ " mg/kg. Status: " ++ toString row.eu_status
    crop := row.crop
    substance := row.active_substance
    target_market := "EU"
    mrl_limit := row.mrl_eu
    mrl_flag := row.mrl_eu_flag
    residue_level := none
    eu_status := row.eu_status
    gap_recommendations := some (extract_gap row)
    alternatives := none
    references := ["COLEAD GAP Database"] }

/-- The residue-comparison tail of `_check_eu_compliance` (lines 159-210):
strict `>` against `mrl_eu` when both the residue and the limit are
present, otherwise the informational fallback. -/
def eu_residue_step (row : Row) (residue_level : Option ℚ) : ComplianceResult :=
  match residue_level, row.mrl_eu with
  | some r, some l => if r > l then eu_exceed_result row r l else eu_compliant_result row r l
  | _, _ => eu_info_result row

/-- The expiring-approval rule (lines 135-156): the truthiness test on the
stored string, the guarded date computation whose failure is swallowed,
and the 180-day threshold. -/
def eu_expiry_check (env : Env) (row : Row) (exp_str : String) (residue_level : Option ℚ) : ComplianceResult :=
  if exp_str = "" then eu_residue_step row residue_level
  else
    match env.dateDays exp_str with
    | some days_until =>
        if days_until < 180 then eu_warning_result row exp_str days_until residue_level
        else eu_residue_step row residue_level
    | none => eu_residue_step row residue_level

/-- `PesticideChecker._check_eu_compliance`: the ordered EU rule chain —
non-approval, expiring approval, then the residue step. -/
def check_eu_compliance (store : List Row) (env : Env) (row : Row) (residue_level : Option ℚ) : ComplianceResult :=
  if euNonApproved row.eu_status then eu_critical_result store row residue_level
  else
    match row.eu_expiration with
    | some exp_str => eu_expiry_check env row exp_str residue_level
    | none => eu_residue_step row residue_level

/-- Codex missing-limit result (`_check_codex_compliance` lines 222-236). -/
def codex_unknown_result (row : Row) (residue_level : Option ℚ) : ComplianceResult :=
  { status := "UNKNOWN"
    severity := "INFO"
    message := "ℹ️ No Codex MRL established for " ++ row.active_substance ++ " on " ++ row.crop ++ "."
    crop := row.crop
    substance := row.active_substance
    target_market := "Codex"
    mrl_limit := none
    mrl_flag := none
    residue_level := residue_level
    eu_status := row.eu_status
    gap_recommendations := some (extract_gap row)
    alternatives := none
    references := ["COLEAD GAP Database", "Codex Alimentarius"] }

/-- Codex exceedance result (lines 241-255). -/
def codex_exceed_result (row : Row) (r l : ℚ) : ComplianceResult :=
  { status := "NON_COMPLIANT"
    severity := "MAJOR"
    message := "❌ Residue level " ++ toString r ++ " mg/kg exceeds Codex MRL of " ++ toString l ++ " mg/kg."
    crop := row.crop
    substance := row.active_substance
    target_market := "Codex"
    mrl_limit := some l
    mrl_flag := row.mrl_codex_flag
    residue_level := some r
    eu_status := row.eu_status
    gap_recommendations := some (extract_gap row)
    alternatives := none
    references := ["COLEAD GAP Database", "Codex Alimentarius"] }

/-- Codex compliant result (lines 257-271). -/
def codex_compliant_result (row : Row) (r l : ℚ) : ComplianceResult :=
  { status := "COMPLIANT"
    severity := "INFO"
    message := "✅ Compliant with Codex standards. Residue " ++ toString r ++ " mg/kg ≤ MRL " ++ toString l ++ " mg/kg."
    crop := row.crop
    substance := row.active_substance
    target_market := "Codex"
    mrl_limit := some l
    mrl_flag := row.mrl_codex_flag
    residue_level := some r
    eu_status := row.eu_status
    gap_recommendations := some (extract_gap row)
    alternatives := none
    references := ["COLEAD GAP Database", "Codex Alimentarius"] }

/-- Codex informational fallback (lines 274-288). -/
def codex_info_result (row : Row) (l : ℚ) : ComplianceResult :=
  { status := "INFO"
    severity := "INFO"
    message := "ℹ️ Codex MRL for " ++ row.active_substance ++ " on " ++ row.crop ++ ": " ++ toString l ++ " mg/kg."
    crop := row.crop
    substance := row.active_substance
    target_market := "Codex"
    mrl_limit := some l
    mrl_flag := row.mrl_codex_flag
    residue_level := none
    eu_status := row.eu_status
    gap_recommendations := some (extract_gap row)
    alternatives := none
    references := ["COLEAD GAP Database", "Codex Alimentarius"] }

/-- `PesticideChecker._check_codex_compliance`: missing-limit branch, the
strict residue comparison against `mrl_codex`, then the informational
fallback.  Every branch echoes the row's `eu_status`. -/
def check_codex_compliance (row : Row) (residue_level : Option ℚ) : ComplianceResult :=
  match row.mrl_codex with
  | none => codex_unknown_result row residue_level
  | some mrl_codex =>
      match residue_level with
      | some r =>
          if r > mrl_codex then codex_exceed_result row r mrl_codex
          else codex_compliant_result row r mrl_codex
      | none => codex_info_result row mrl_codex

/-- `PesticideChecker._create_unknown_result`. -/
def create_unknown_result (crop substance target_market : String) (residue_level : Option ℚ) : ComplianceResult :=
  { status := "UNKNOWN"
    severity := "INFO"
    message := "ℹ️ No data found for " ++ substance ++ " on " ++ crop ++ " in COLEAD database."
    crop := crop
    substance := substance
    target_market := target_market
    mrl_limit := none
    mrl_flag := none
    residue_level := residue_level
    eu_status := none
    gap_recommendations := none
    alternatives := none
    references := ["COLEAD GAP Database"] }

/-- The market dispatch of `check_compliance` (lines 100-105):
case-insensitive comparison against "EU" and "CODEX"; any other market
raises `ValueError`, embedded as `Except.error`. -/
def dispatch_market (store : List Row) (env : Env) (row : Row) (target_market : String) (residue_level : Option ℚ) : Except String ComplianceResult :=
  if strUpper target_market = "EU" then
    Except.ok (check_eu_compliance store env row residue_level)
  else if strUpper target_market = "CODEX" then
    Except.ok (check_codex_compliance row residue_level)
  else
    Except.error ("Unknown target market: " ++ target_market ++ ". Use \x27EU\x27 or \x27Codex\x27.")

/-- `PesticideChecker.check_compliance`: query, unknown-result on an empty
response, then the market dispatch on the first returned row. -/
def check_compliance (store : List Row) (env : Env) (crop substance target_market : String) (residue_level : Option ℚ) : Except String ComplianceResult :=
  match find_records store crop substance with
  | [] => Except.ok (create_unknown_result crop substance target_market residue_level)
  | row :: _ => dispatch_market store env row target_market residue_level

/-- The expiring-approval branch of `check_eu_compliance` is taken exactly
when this predicate holds. -/
def euExpiryFires (env : Env) (row : Row) : Prop :=
  ∃ s d, row.eu_expiration = some s ∧ s ≠ "" ∧ env.dateDays s = some d ∧ d < 180

/-- The (status, severity) pairs the checker can produce. -/
def allowedPairs : List (String × String) :=
  [("NON_COMPLIANT", "CRITICAL"), ("NON_COMPLIANT", "MAJOR"), ("WARNING", "MAJOR"),
   ("COMPLIANT", "INFO"), ("INFO", "INFO"), ("UNKNOWN", "INFO")]

/-- The result invariant: an allowed (status, severity) pair, never MINOR,
risk-free statuses carry INFO, and the references always start with the
COLEAD citation. -/
def resOk (res : ComplianceResult) : Prop :=
  (res.status, res.severity) ∈ allowedPairs ∧
  res.severity ≠ "MINOR" ∧
  ((res.status = "UNKNOWN" ∨ res.status = "COMPLIANT" ∨ res.status = "INFO") → res.severity = "INFO") ∧
  res.references ≠ [] ∧
  res.references.head? = some "COLEAD GAP Database"

/-! ### Concrete fixtures for witnesses and counterexamples -/

/-- A row with every nullable column null. -/
def blankRow : Row :=
  { crop := "mango"
    active_substance := "Chlorpyrifos"
    eu_status := none
    mrl_eu := none
    mrl_eu_flag := none
    mrl_codex := none
    mrl_codex_flag := none
    eu_expiration := none
    pesticide_type := none
    dose := none
    max_applications := none
    interval_days := none
    preharvest_eu := none
    preharvest_codex := none
    who_class := none
    resistance_group := none }

/-- Row carrying the stored (French) non-approved status. -/
def rowNA : Row := { blankRow with eu_status := some "Non approuvée", pesticide_type := some "Insecticide" }

/-- Row carrying the spec's English rendering of the non-approved status. -/
def rowNAen : Row := { blankRow with eu_status := some "Not approved" }

/-- Approved row with both market limits set to 2 mg/kg. -/
def rowLim : Row :=
  { blankRow with eu_status := some "Approuvée", mrl_eu := some 2, mrl_codex := some 2 }

/-- Non-approved row that still has a Codex limit. -/
def rowCx : Row := { blankRow with eu_status := some "Non approuvée", mrl_codex := some 1 }

/-- Approved row with an expiration date string. -/
def rowExp : Row := { blankRow with eu_status := some "Approuvée", eu_expiration := some "2026-01-01" }

/-- Environment in which every date computation raises. -/
def env0 : Env := ⟨fun _ => none⟩

/-- Environment in which every date parses to 10 days from now. -/
def envW : Env := ⟨fun _ => some 10⟩

/-! ### Helper lemmas -/

/-- When neither the non-approval rule nor the expiring-approval rule
fires, the EU chain reduces to the residue step. -/
theorem eu_chain_falls_through (store : List Row) (env : Env) (row : Row) (residue : Option ℚ)
    (hst : ¬ euNonApproved row.eu_status) (hnf : ¬ euExpiryFires env row) :
    check_eu_compliance store env row residue = eu_residue_step row residue := by
  unfold check_eu_compliance
  rw [if_neg hst]
  cases hexp : row.eu_expiration with
  | none => rfl
  | some s =>
    show eu_expiry_check env row s residue = eu_residue_step row residue
    unfold eu_expiry_check
    by_cases hs : s = ""
    · rw [if_pos hs]
    · rw [if_neg hs]
      cases hd : env.dateDays s with
      | none => rfl
      | some d =>
        show (if d < 180 then eu_warning_result row s d residue else eu_residue_step row residue) = eu_residue_step row residue
        have hge : ¬ d < 180 := fun hlt => hnf ⟨s, d, hexp, hs, hd, hlt⟩
        rw [if_neg hge]

/-- Each EU result builder satisfies the result invariant. -/
theorem resOk_eu_residue_step (row : Row) (residue : Option ℚ) :
    resOk (eu_residue_step row residue) := by
  unfold eu_residue_step
  cases residue with
  | none => simp [resOk, allowedPairs, eu_info_result]
  | some r =>
    cases hm : row.mrl_eu with
    | none => simp [resOk, allowedPairs, eu_info_result]
    | some l =>
      show resOk (if r > l then eu_exceed_result row r l else eu_compliant_result row r l)
      by_cases hgt : r > l
      · rw [if_pos hgt]; simp [resOk, allowedPairs, eu_exceed_result]
      · rw [if_neg hgt]; simp [resOk, allowedPairs, eu_compliant_result]

/-- The EU chain always satisfies the result invariant. -/
theorem resOk_eu (store : List Row) (env : Env) (row : Row) (residue : Option ℚ) :
    resOk (check_eu_compliance store env row residue) := by
  unfold check_eu_compliance
  by_cases hst : euNonApproved row.eu_status
  · rw [if_pos hst]; simp [resOk, allowedPairs, eu_critical_result]
  · rw [if_neg hst]
    cases hexp : row.eu_expiration with
    | none => exact resOk_eu_residue_step row residue
    | some s =>
      show resOk (eu_expiry_check env row s residue)
      unfold eu_expiry_check
      by_cases hs : s = ""
      · rw [if_pos hs]; exact resOk_eu_residue_step row residue
      · rw [if_neg hs]
        cases hd : env.dateDays s with
        | none => exact resOk_eu_residue_step row residue
        | some d =>
          show resOk (if d < 180 then eu_warning_result row s d residue else eu_residue_step row residue)
          by_cases hlt : d < 180
          · rw [if_pos hlt]; simp [resOk, allowedPairs, eu_warning_result]
          · rw [if_neg hlt]; exact resOk_eu_residue_step row residue

/-- The Codex chain always satisfies the result invariant. -/
theorem resOk_codex (row : Row) (residue : Option ℚ) :
    resOk (check_codex_compliance row residue) := by
  unfold check_codex_compliance
  cases hm : row.mrl_codex with
  | none => simp [resOk, allowedPairs, codex_unknown_result]
  | some l =>
    cases residue with
    | none => simp [resOk, allowedPairs, codex_info_result]
    | some r =>
      show resOk (if r > l then codex_exceed_result row r l else codex_compliant_result row r l)
      by_cases hgt : r > l
      · rw [if_pos hgt]; simp [resOk, allowedPairs, codex_exceed_result]
      · rw [if_neg hgt]; simp [resOk, allowedPairs, codex_compliant_result]

/-- The unknown result always satisfies the result invariant. -/
theorem resOk_unknown (crop substance market : String) (residue : Option ℚ) :
    resOk (create_unknown_result crop substance market residue) := by
  simp [resOk, allowedPairs, create_unknown_result]

/-- Reduction of the Codex chain when a limit and a residue are present. -/
theorem check_codex_eq_ite (row : Row) (r l : ℚ) (hmrl : row.mrl_codex = some l) :
    check_codex_compliance row (some r) =
      if r > l then codex_exceed_result row r l else codex_compliant_result row r l := by
  unfold check_codex_compliance
  rw [hmrl]

/-- Reduction of the Codex chain when a limit is present but no residue. -/
theorem check_codex_none_eq (row : Row) (l : ℚ) (hmrl : row.mrl_codex = some l) :
    check_codex_compliance row none = codex_info_result row l := by
  unfold check_codex_compliance
  rw [hmrl]

/-- Reduction of the Codex chain when no Codex limit exists. -/
theorem check_codex_unk_eq (row : Row) (residue : Option ℚ) (hmrl : row.mrl_codex = none) :
    check_codex_compliance row residue = codex_unknown_result row residue := by
  unfold check_codex_compliance
  rw [hmrl]

/-- Reduction of the EU chain to the residue comparison when the first
two rules do not fire and an EU limit exists. -/
theorem check_eu_eq_residue_ite (store : List Row) (env : Env) (row : Row) (r l : ℚ)
    (hst : ¬ euNonApproved row.eu_status) (hnf : ¬ euExpiryFires env row)
    (hmrl : row.mrl_eu = some l) :
    check_eu_compliance store env row (some r) =
      if r > l then eu_exceed_result row r l else eu_compliant_result row r l := by
  rw [eu_chain_falls_through store env row (some r) hst hnf]
  unfold eu_residue_step
  rw [hmrl]

/-! ### Claim theorems -/

/-- C1 (counterexample): the non-approved set is not the English
`{"Not approved", "Not listed"}` — a record stored with
`eu_status = "Not approved"` does not trigger the CRITICAL non-approval
rule; the EU evaluation falls through to the informational branch. -/
theorem C1_counterexample :
    (check_compliance [rowNAen] env0 "mango" "Chlorpyrifos" "EU" (some 1)).toOption.map ComplianceResult.status = some "INFO" ∧
    (check_compliance [rowNAen] env0 "mango" "Chlorpyrifos" "EU" (some 1)).toOption.map ComplianceResult.status ≠ some "NON_COMPLIANT" ∧
    (check_compliance [rowNAen] env0 "mango" "Chlorpyrifos" "EU" (some 1)).toOption.map ComplianceResult.severity ≠ some "CRITICAL" := by
  refine ⟨rfl, ?_, ?_⟩ <;> decide

/-- C1 (amended): for every record whose `eu_status` is in the stored
non-approved set {"Non approuvée", "Non reprise dans la liste"},
evaluating with target market EU returns NON_COMPLIANT / CRITICAL
regardless of the residue level or the record's limit values, with
`alternatives` populated (possibly empty), `gap_recommendations` absent,
and references `["COLEAD GAP Database", "EU Reg 396/2005"]`. -/
theorem C1_eu_non_approval_critical (store : List Row) (env : Env) (crop substance : String)
    (residue : Option ℚ) (row : Row) (rest : List Row)
    (hfind : find_records store crop substance = row :: rest)
    (hst : euNonApproved row.eu_status) :
    ∃ res, check_compliance store env crop substance "EU" residue = Except.ok res ∧
      res.status = "NON_COMPLIANT" ∧ res.severity = "CRITICAL" ∧
      res.alternatives = some (find_alternatives store row.crop row.pesticide_type) ∧
      res.gap_recommendations = none ∧
      res.references = ["COLEAD GAP Database", "EU Reg 396/2005"] := by
  refine ⟨check_eu_compliance store env row residue, ?_, ?_⟩
  · unfold check_compliance
    rw [hfind]
    show dispatch_market store env row "EU" residue = Except.ok (check_eu_compliance store env row residue)
    unfold dispatch_market
    rw [if_pos (show strUpper "EU" = "EU" by decide)]
  · unfold check_eu_compliance
    rw [if_pos hst]
    exact ⟨rfl, rfl, rfl, rfl, rfl⟩

/-- C1 witness: the amended theorem applied to a concrete store holding a
"Non approuvée" record. -/
theorem C1_witness :
    ∃ res, check_compliance [rowNA] env0 "mango" "Chlorpyrifos" "EU" (some 1) = Except.ok res ∧
      res.status = "NON_COMPLIANT" ∧ res.severity = "CRITICAL" ∧
      res.alternatives = some (find_alternatives [rowNA] rowNA.crop rowNA.pesticide_type) ∧
      res.gap_recommendations = none ∧
      res.references = ["COLEAD GAP Database", "EU Reg 396/2005"] :=
  C1_eu_non_approval_critical [rowNA] env0 "mango" "Chlorpyrifos" (some 1) rowNA [] (by decide) (Or.inl rfl)

/-- C2 (counterexample): the unknown result is not absent in every
optional field other than `references` — the supplied `residue_level` is
echoed back, so with a residue of 1 the result's `residue_level` is
`some 1`, not absent. -/
theorem C2_counterexample :
    (check_compliance [] env0 "tomato" "Unknownicide" "EU" (some 1)).map ComplianceResult.residue_level = Except.ok (some 1) ∧
    (some (1 : ℚ)) ≠ (none : Option ℚ) := by
  exact ⟨rfl, by decide⟩

/-- C2 (amended): for every (crop, substance) pair with no matching record,
`check_compliance` returns UNKNOWN / INFO for any market and any residue,
with `mrl_limit`, `mrl_flag`, `eu_status`, `gap_recommendations` and
`alternatives` absent, `residue_level` echoing the input, and references
equal to the fixed market-independent `["COLEAD GAP Database"]`. -/
theorem C2_unknown_result (store : List Row) (env : Env) (crop substance market : String)
    (residue : Option ℚ)
    (hfind : find_records store crop substance = []) :
    ∃ res, check_compliance store env crop substance market residue = Except.ok res ∧
      res.status = "UNKNOWN" ∧ res.severity = "INFO" ∧
      res.mrl_limit = none ∧ res.mrl_flag = none ∧ res.eu_status = none ∧
      res.gap_recommendations = none ∧ res.alternatives = none ∧
      res.residue_level = residue ∧
      res.references = ["COLEAD GAP Database"] := by
  refine ⟨create_unknown_result crop substance market residue, ?_, rfl, rfl, rfl, rfl, rfl, rfl, rfl, rfl, rfl⟩
  unfold check_compliance
  rw [hfind]

/-- C2 witness: the amended theorem applied to the empty store with an
unsupported market selector, showing market-independence. -/
theorem C2_witness :
    ∃ res, check_compliance [] env0 "tomato" "Unknownicide" "FR" (some 1) = Except.ok res ∧
      res.status = "UNKNOWN" ∧ res.severity = "INFO" ∧
      res.mrl_limit = none ∧ res.mrl_flag = none ∧ res.eu_status = none ∧
      res.gap_recommendations = none ∧ res.alternatives = none ∧
      res.residue_level = some 1 ∧
      res.references = ["COLEAD GAP Database"] :=
  C2_unknown_result [] env0 "tomato" "Unknownicide" "FR" (some 1) rfl

/-- C3: the evaluator is a pure function of
(store, environment, crop, substance, market, residue): two calls with
identical arguments yield identical results.  In this embedding the only
state the Python code reads — the record store and the clock — is an
explicit argument, so purity holds by construction. -/
theorem C3_deterministic (store : List Row) (env : Env) (crop substance market : String)
    (residue : Option ℚ) :
    check_compliance store env crop substance market residue =
      check_compliance store env crop substance market residue := rfl

/-- C5 (counterexample): an unsupported market does not always fail —
the no-record check precedes market validation, so with an empty store
the call returns the UNKNOWN result even for market "FR". -/
theorem C5_counterexample :
    check_compliance [] env0 "mango" "Chlorpyrifos" "FR" none =
      Except.ok (create_unknown_result "mango" "Chlorpyrifos" "FR" none) := rfl

/-- C5 (amended): when a matching record exists, any market other than
case-insensitive "EU" or "Codex" makes the call fail with the
`ValueError` (ValidationError), for every residue. -/
theorem C5_unknown_market_error (store : List Row) (env : Env) (crop substance market : String)
    (residue : Option ℚ) (row : Row) (rest : List Row)
    (hfind : find_records store crop substance = row :: rest)
    (hEU : strUpper market ≠ "EU") (hCX : strUpper market ≠ "CODEX") :
    check_compliance store env crop substance market residue =
      Except.error ("Unknown target market: " ++ market ++ ". Use \x27EU\x27 or \x27Codex\x27.") := by
  unfold check_compliance
  rw [hfind]
  show dispatch_market store env row market residue = _
  unfold dispatch_market
  rw [if_neg hEU, if_neg hCX]

/-- C5 witness: a store holding a matching record and market "FR". -/
theorem C5_witness :
    check_compliance [rowNA] env0 "mango" "Chlorpyrifos" "FR" none =
      Except.error ("Unknown target market: " ++ "FR" ++ ". Use \x27EU\x27 or \x27Codex\x27.") :=
  C5_unknown_market_error [rowNA] env0 "mango" "Chlorpyrifos" "FR" none rowNA [] (by decide)
    (by decide) (by decide)

/-- C4: the residue comparison is strict on both branches: when the
evaluated market's limit is defined and a residue is supplied, residue
strictly above the limit gives NON_COMPLIANT / MAJOR and residue at or
below the limit (equality included) gives COMPLIANT / INFO.  On the EU
branch this holds once the non-approval and expiry rules do not fire. -/
theorem C4_strict_residue_comparison (store : List Row) (env : Env) (row : Row) (r l : ℚ) :
    (¬ euNonApproved row.eu_status → ¬ euExpiryFires env row → row.mrl_eu = some l →
      (r > l → (check_eu_compliance store env row (some r)).status = "NON_COMPLIANT" ∧
               (check_eu_compliance store env row (some r)).severity = "MAJOR") ∧
      (r ≤ l → (check_eu_compliance store env row (some r)).status = "COMPLIANT" ∧
               (check_eu_compliance store env row (some r)).severity = "INFO")) ∧
    (row.mrl_codex = some l →
      (r > l → (check_codex_compliance row (some r)).status = "NON_COMPLIANT" ∧
               (check_codex_compliance row (some r)).severity = "MAJOR") ∧
      (r ≤ l → (check_codex_compliance row (some r)).status = "COMPLIANT" ∧
               (check_codex_compliance row (some r)).severity = "INFO")) := by
  constructor
  · intro hst hnf hmrl
    rw [check_eu_eq_residue_ite store env row r l hst hnf hmrl]
    constructor
    · intro hgt; rw [if_pos hgt]; exact ⟨rfl, rfl⟩
    · intro hle; rw [if_neg (not_lt.mpr hle)]; exact ⟨rfl, rfl⟩
  · intro hmrl
    rw [check_codex_eq_ite row r l hmrl]
    constructor
    · intro hgt; rw [if_pos hgt]; exact ⟨rfl, rfl⟩
    · intro hle; rw [if_neg (not_lt.mpr hle)]; exact ⟨rfl, rfl⟩

/-- C4 witness: residue 3 against limit 2 on both markets. -/
theorem C4_witness :
    (check_eu_compliance [] env0 rowLim (some 3)).status = "NON_COMPLIANT" ∧
    (check_codex_compliance rowLim (some 3)).status = "NON_COMPLIANT" := by
  have h := C4_strict_residue_comparison [] env0 rowLim 3 2
  refine ⟨((h.1 (by decide) ?_ rfl).1 (by norm_num)).1, ((h.2 rfl).1 (by norm_num)).1⟩
  rintro ⟨s, d, hsd, h1, h2, h3⟩
  exact Option.noConfusion hsd

/-- C6 (counterexample): a record with a defined `mrl_codex` evaluated on
the Codex market without a residue yields INFO, not a
COMPLIANT / NON_COMPLIANT verdict. -/
theorem C6_counterexample :
    (check_codex_compliance rowCx none).status = "INFO" ∧
    (check_codex_compliance rowCx none).status ≠ "COMPLIANT" ∧
    (check_codex_compliance rowCx none).status ≠ "NON_COMPLIANT" := by
  refine ⟨rfl, ?_, ?_⟩ <;> decide

/-- C6 (amended): for a record with defined `mrl_codex` and a supplied
residue, the Codex verdict is COMPLIANT or NON_COMPLIANT, determined only
by the residue comparison; and for every record and residue the Codex
branch never yields severity CRITICAL (even for non-approved `eu_status`)
and echoes the record's `eu_status` verbatim. -/
theorem C6_codex_residue_only (row : Row) (r l : ℚ) (hmrl : row.mrl_codex = some l) :
    ((check_codex_compliance row (some r)).status = "NON_COMPLIANT" ↔ r > l) ∧
    ((check_codex_compliance row (some r)).status = "COMPLIANT" ↔ r ≤ l) ∧
    (∀ (row' : Row) (residue : Option ℚ),
      (check_codex_compliance row' residue).severity ≠ "CRITICAL" ∧
      (check_codex_compliance row' residue).eu_status = row'.eu_status) := by
  refine ⟨?_, ?_, ?_⟩
  · rw [check_codex_eq_ite row r l hmrl]
    by_cases hgt : r > l
    · rw [if_pos hgt]; exact iff_of_true rfl hgt
    · rw [if_neg hgt]; exact iff_of_false (by simp [codex_compliant_result]) hgt
  · rw [check_codex_eq_ite row r l hmrl]
    by_cases hgt : r > l
    · rw [if_pos hgt]; exact iff_of_false (by simp [codex_exceed_result]) (not_le.mpr hgt)
    · rw [if_neg hgt]; exact iff_of_true rfl (not_lt.mp hgt)
  · intro row' residue
    cases hm : row'.mrl_codex with
    | none =>
      rw [check_codex_unk_eq row' residue hm]
      exact ⟨by simp [codex_unknown_result], rfl⟩
    | some l' =>
      cases residue with
      | none =>
        rw [check_codex_none_eq row' l' hm]
        exact ⟨by simp [codex_info_result], rfl⟩
      | some r' =>
        rw [check_codex_eq_ite row' r' l' hm]
        by_cases hgt : r' > l'
        · rw [if_pos hgt]; exact ⟨by simp [codex_exceed_result], rfl⟩
        · rw [if_neg hgt]; exact ⟨by simp [codex_compliant_result], rfl⟩

/-- C6 witness: non-approved record with Codex limit 1 and residue 2. -/
theorem C6_witness :
    ((check_codex_compliance rowCx (some 2)).status = "NON_COMPLIANT" ↔ (2 : ℚ) > 1) ∧
    (check_codex_compliance rowCx (some 2)).severity ≠ "CRITICAL" :=
  ⟨(C6_codex_residue_only rowCx 2 1 rfl).1,
   ((C6_codex_residue_only rowCx 2 1 rfl).2.2 rowCx (some 2)).1⟩

/-- C7: for every record without a Codex limit, Codex evaluation returns
UNKNOWN / INFO with GAP populated from the record, `mrl_limit` and
`mrl_flag` absent, and references citing the internal database and Codex
Alimentarius, regardless of the supplied residue. -/
theorem C7_codex_no_limit (row : Row) (residue : Option ℚ) (h : row.mrl_codex = none) :
    (check_codex_compliance row residue).status = "UNKNOWN" ∧
    (check_codex_compliance row residue).severity = "INFO" ∧
    (check_codex_compliance row residue).gap_recommendations = some (extract_gap row) ∧
    (check_codex_compliance row residue).mrl_limit = none ∧
    (check_codex_compliance row residue).mrl_flag = none ∧
    (check_codex_compliance row residue).references = ["COLEAD GAP Database", "Codex Alimentarius"] := by
  rw [check_codex_unk_eq row residue h]
  exact ⟨rfl, rfl, rfl, rfl, rfl, rfl⟩

/-- C7 witness: a blank record with a supplied residue. -/
theorem C7_witness :
    (check_codex_compliance blankRow (some 1)).status = "UNKNOWN" ∧
    (check_codex_compliance blankRow (some 1)).severity = "INFO" ∧
    (check_codex_compliance blankRow (some 1)).gap_recommendations = some (extract_gap blankRow) ∧
    (check_codex_compliance blankRow (some 1)).mrl_limit = none ∧
    (check_codex_compliance blankRow (some 1)).mrl_flag = none ∧
    (check_codex_compliance blankRow (some 1)).references = ["COLEAD GAP Database", "Codex Alimentarius"] :=
  C7_codex_no_limit blankRow (some 1) rfl

/-- C8: on the EU branch with the non-approval rule not firing and a
truthy expiration string, a date that fails to parse silently skips the
expiry rule — evaluation equals the residue step, a normal result —
while a parseable date strictly under 180 days away yields
WARNING / MAJOR. -/
theorem C8_expiry_parse (store : List Row) (env : Env) (row : Row) (residue : Option ℚ) (s : String)
    (hst : ¬ euNonApproved row.eu_status) (hexp : row.eu_expiration = some s) (hs : s ≠ "") :
    (env.dateDays s = none →
      check_eu_compliance store env row residue = eu_residue_step row residue) ∧
    (∀ d : Int, env.dateDays s = some d → d < 180 →
      (check_eu_compliance store env row residue).status = "WARNING" ∧
      (check_eu_compliance store env row residue).severity = "MAJOR") := by
  have hbase : check_eu_compliance store env row residue = eu_expiry_check env row s residue := by
    unfold check_eu_compliance
    rw [if_neg hst, hexp]
  constructor
  · intro hd
    rw [hbase]
    unfold eu_expiry_check
    rw [if_neg hs, hd]
  · intro d hd hlt
    rw [hbase]
    unfold eu_expiry_check
    rw [if_neg hs, hd]
    show (if d < 180 then eu_warning_result row s d residue else eu_residue_step row residue).status = "WARNING" ∧
      (if d < 180 then eu_warning_result row s d residue else eu_residue_step row residue).severity = "MAJOR"
    rw [if_pos hlt]
    exact ⟨rfl, rfl⟩

/-- C8 witness: an approved record whose date parses to 10 days away. -/
theorem C8_witness :
    (check_eu_compliance [] envW rowExp none).status = "WARNING" ∧
    (check_eu_compliance [] envW rowExp none).severity = "MAJOR" :=
  (C8_expiry_parse [] envW rowExp none "2026-01-01" (by decide) rfl (by decide)).2 10 rfl (by decide)

/-- C9: `_find_alternatives` returns `[]` for an absent or empty
pesticide type for any store, and otherwise returns at most 5 names; each
returned name comes from a store row for the same crop
(case-insensitively), with EU-approved status, whose pesticide type
contains the requested type as a case-insensitive substring. -/
theorem C9_alternatives_contract (store : List Row) (crop : String) :
    find_alternatives store crop none = [] ∧
    find_alternatives store crop (some "") = [] ∧
    ∀ pt : String,
      (find_alternatives store crop (some pt)).length ≤ 5 ∧
      ∀ name ∈ find_alternatives store crop (some pt),
        ∃ row ∈ store, row.active_substance = name ∧
          strLowerEq row.crop crop = true ∧
          row.eu_status = some "Approuvée" ∧
          ∃ rpt, row.pesticide_type = some rpt ∧ containsCI rpt pt = true := by
  refine ⟨rfl, rfl, fun pt => ⟨?_, ?_⟩⟩
  · show (find_alternatives_query store crop pt).length ≤ 5
    by_cases hpt : pt = ""
    · subst hpt; simp [find_alternatives_query]
    · unfold find_alternatives_query
      rw [if_neg hpt, List.length_map]
      exact List.length_take_le 5 _
  · intro name hname
    have hname2 : name ∈ find_alternatives_query store crop pt := hname
    by_cases hpt : pt = ""
    · subst hpt
      simp [find_alternatives_query] at hname2
    · unfold find_alternatives_query at hname2
      rw [if_neg hpt] at hname2
      obtain ⟨row, hrowtake, hroweq⟩ := List.mem_map.mp hname2
      obtain ⟨hrowmem, hp⟩ := List.mem_filter.mp (List.mem_of_mem_take hrowtake)
      rw [Bool.and_eq_true, Bool.and_eq_true] at hp
      obtain ⟨⟨hcrop, hpt2⟩, happr⟩ := hp
      refine ⟨row, hrowmem, hroweq, hcrop, beq_iff_eq.mp happr, ?_⟩
      cases hrpt : row.pesticide_type with
      | none => rw [hrpt] at hpt2; simp at hpt2
      | some rpt => rw [hrpt] at hpt2; exact ⟨rpt, rfl, hpt2⟩

/-- C9 witness: the no-op cases and the cap at a concrete store. -/
theorem C9_witness :
    find_alternatives [rowNA] "mango" none = [] ∧
    find_alternatives [rowNA] "mango" (some "") = [] ∧
    (find_alternatives [rowNA] "mango" (some "Insect")).length ≤ 5 :=
  ⟨(C9_alternatives_contract [rowNA] "mango").1,
   (C9_alternatives_contract [rowNA] "mango").2.1,
   ((C9_alternatives_contract [rowNA] "mango").2.2 "Insect").1⟩

/-- C10: every non-erroring call produces a result whose
(status, severity) pair lies in the closed set `allowedPairs` — MINOR is
never produced, risk-free statuses always carry INFO, and references are
non-empty and headed by "COLEAD GAP Database" — and every pair of
`allowedPairs` is actually produced by some call. -/
theorem C10_status_severity_invariant (store : List Row) (env : Env) (crop substance market : String)
    (residue : Option ℚ) (res : ComplianceResult)
    (h : check_compliance store env crop substance market residue = Except.ok res) :
    ((res.status, res.severity) ∈ allowedPairs ∧
     res.severity ≠ "MINOR" ∧
     ((res.status = "UNKNOWN" ∨ res.status = "COMPLIANT" ∨ res.status = "INFO") → res.severity = "INFO") ∧
     res.references ≠ [] ∧
     res.references.head? = some "COLEAD GAP Database") ∧
    (∀ p ∈ allowedPairs, ∃ (store' : List Row) (env' : Env) (crop' substance' market' : String)
      (residue' : Option ℚ) (res' : ComplianceResult),
      check_compliance store' env' crop' substance' market' residue' = Except.ok res' ∧
      (res'.status, res'.severity) = p) := by
  constructor
  · have hok : resOk res := by
      unfold check_compliance at h
      cases hfind : find_records store crop substance with
      | nil =>
        rw [hfind] at h
        have h2 : Except.ok (create_unknown_result crop substance market residue) = Except.ok res := h
        rw [← Except.ok.inj h2]
        exact resOk_unknown crop substance market residue
      | cons row rest =>
        rw [hfind] at h
        have h2 : dispatch_market store env row market residue = Except.ok res := h
        unfold dispatch_market at h2
        by_cases hEU : strUpper market = "EU"
        · rw [if_pos hEU] at h2
          rw [← Except.ok.inj h2]
          exact resOk_eu store env row residue
        · rw [if_neg hEU] at h2
          by_cases hCX : strUpper market = "CODEX"
          · rw [if_pos hCX] at h2
            rw [← Except.ok.inj h2]
            exact resOk_codex row residue
          · rw [if_neg hCX] at h2
            exact Except.noConfusion h2
    exact hok
  · intro p hp
    simp only [allowedPairs, List.mem_cons, List.not_mem_nil, or_false] at hp
    rcases hp with rfl | rfl | rfl | rfl | rfl | rfl
    · exact ⟨[rowNA], env0, "mango", "Chlorpyrifos", "EU", none, _, rfl, rfl⟩
    · exact ⟨[rowLim], env0, "mango", "Chlorpyrifos", "EU", some 3, _, rfl, rfl⟩
    · exact ⟨[rowExp], envW, "mango", "Chlorpyrifos", "EU", none, _, rfl, rfl⟩
    · exact ⟨[rowLim], env0, "mango", "Chlorpyrifos", "EU", some 1, _, rfl, rfl⟩
    · exact ⟨[rowLim], env0, "mango", "Chlorpyrifos", "EU", none, _, rfl, rfl⟩
    · exact ⟨[], env0, "mango", "Chlorpyrifos", "EU", none, _, rfl, rfl⟩

/-- C10 witness: the invariant read off a no-record call. -/
theorem C10_witness :
    ((create_unknown_result "a" "b" "EU" none).status,
      (create_unknown_result "a" "b" "EU" none).severity) ∈ allowedPairs :=
  (C10_status_severity_invariant [] env0 "a" "b" "EU" none
    (create_unknown_result "a" "b" "EU" none) rfl).1.1

end Foodscan
